import Mathlib

/-!
Verification of the input-validation and order-dispatch core of the
binance-testnet-bot repository (src/utils.py, src/bot.py, src/basic_bot.py).

Modelling conventions:
* Python strings are Lean `String`s; the character-class functions
  (`str.isupper`, `str.isalpha`, `str.upper`) are modelled at the ASCII
  level, which covers every string the program's own tests and CLI examples
  use.
* Python `float(s)` is modelled as an exact parser `pyFloat` over the
  decimal-literal grammar `[+|-] (digits [. digits] | . digits)
  [(e|E) [+|-] digits]`; the special spellings `inf`/`nan`, underscores and
  surrounding whitespace are outside the model.  The parsed value is kept
  in the exact form `num / 10 ^ exp` (`PyFloat`), whose rational value is
  `PyFloat.toRat`; the claims under study only concern parse
  success/failure, sign and zero, which this value represents faithfully.
* A Python dict built key-by-key is modelled as an association list
  `List (String × PyVal)` in insertion order; the empty dict is `[]`.
* A raised exception is modelled by the `Except.error` constructor carrying
  the exception message; `Except.ok` is a normal return.
-/

/-- Exact value of a parsed Python float literal: the rational number
`num / 10 ^ exp`. -/
structure PyFloat where
  num : Int
  exp : Nat
deriving DecidableEq

/-- The rational value a `PyFloat` denotes. -/
def PyFloat.toRat (x : PyFloat) : Rat := (x.num : Rat) / (10 : Rat) ^ x.exp

/-- The float comparison `x > 0`, computed on the exact representation
(justified against `PyFloat.toRat` by `PyFloat.isPos_iff` below). -/
def PyFloat.isPos (x : PyFloat) : Bool := decide (0 < x.num)

/-- A Python value stored in the `validated_data` dict: the program only
ever stores strings and floats there. -/
inductive PyVal where
  | str (s : String)
  | num (q : PyFloat)
deriving DecidableEq

instance {ε α : Type} [DecidableEq ε] [DecidableEq α] : DecidableEq (Except ε α) :=
  fun x y =>
    match x, y with
    | .error a, .error b =>
      if h : a = b then .isTrue (by rw [h]) else .isFalse (fun hc => h (Except.error.inj hc))
    | .ok a, .ok b =>
      if h : a = b then .isTrue (by rw [h]) else .isFalse (fun hc => h (Except.ok.inj hc))
    | .error _, .ok _ => .isFalse (fun hc => Except.noConfusion hc)
    | .ok _, .error _ => .isFalse (fun hc => Except.noConfusion hc)

/-- ASCII model of Python's "uppercase cased character" class. -/
def pyIsUpperChar (c : Char) : Bool := 65 ≤ c.toNat && c.toNat ≤ 90

/-- ASCII model of Python's "lowercase cased character" class. -/
def pyIsLowerChar (c : Char) : Bool := 97 ≤ c.toNat && c.toNat ≤ 122

/-- ASCII model of Python's alphabetic-character class. -/
def pyIsAlphaChar (c : Char) : Bool := pyIsUpperChar c || pyIsLowerChar c

/-- ASCII model of upper-casing one character, as `str.upper` does. -/
def pyUpperChar (c : Char) : Char :=
  if pyIsLowerChar c then Char.ofNat (c.toNat - 32) else c

/-- Model of Python `s.upper()`: upper-case every character. -/
def pyUpper (s : String) : String := ⟨s.data.map pyUpperChar⟩

/-- Model of Python `s.isalpha()`: non-empty and every character
alphabetic. -/
def pyIsAlpha (s : String) : Bool :=
  !s.data.isEmpty && s.data.all pyIsAlphaChar

/-- Model of Python `s.isupper()`: at least one cased character and no
lowercase cased character. -/
def pyIsUpper (s : String) : Bool :=
  s.data.any pyIsAlphaChar && !s.data.any pyIsLowerChar

/-- Model of the Python slice `s[-4:]`: the last four characters (the whole
string when it is shorter than four characters, matching Python's
clamping). -/
def pyLast4 (s : String) : String := ⟨s.data.drop (s.data.length - 4)⟩

/-- Numeric value of a digit string read most-significant-first. -/
def digitsVal (ds : List Char) : Nat :=
  ds.foldl (fun acc c => acc * 10 + (c.toNat - 48)) 0

/-- Parse the unsigned part of a Python float literal:
`digits [. digits] | . digits`, optionally followed by `(e|E) [+|-]
digits`.  Returns the exact value `num / 10 ^ exp`. -/
def pyFloatUnsigned (cs : List Char) : Option PyFloat :=
  let mantExp := cs.span (fun c => c ≠ 'e' && c ≠ 'E')
  let mant := mantExp.1
  let ipFp := mant.span (fun c => c ≠ '.')
  let ip := ipFp.1
  let fp := match ipFp.2 with
    | [] => []
    | _ :: tl => tl
  if ip.all Char.isDigit && fp.all Char.isDigit && !(ip.isEmpty && fp.isEmpty) then
    let baseNum : Int := (digitsVal ip * 10 ^ fp.length + digitsVal fp : Nat)
    match mantExp.2 with
    | [] => some ⟨baseNum, fp.length⟩
    | _ :: ecs =>
      let signDigits : Bool × List Char := match ecs with
        | '+' :: tl => (true, tl)
        | '-' :: tl => (false, tl)
        | other => (true, other)
      if !signDigits.2.isEmpty && signDigits.2.all Char.isDigit then
        if signDigits.1 then
          some ⟨baseNum * 10 ^ digitsVal signDigits.2, fp.length⟩
        else
          some ⟨baseNum, fp.length + digitsVal signDigits.2⟩
      else
        none
  else
    none

/-- Model of Python `float(s)` on a string: `some` of the exact value when
the literal is well-formed, `none` when `float` would raise
`ValueError`. -/
def pyFloat (s : String) : Option PyFloat :=
  match s.data with
  | '+' :: tl => pyFloatUnsigned tl
  | '-' :: tl => (pyFloatUnsigned tl).map (fun q => ⟨-q.num, q.exp⟩)
  | cs => pyFloatUnsigned cs

/-- `utils.validate_symbol`: reject empty or shorter-than-6 symbols, then
accept iff (`isupper()` and `isalpha()`) or the last four characters are
`"USDT"` (Python's `and` binds tighter than `or`). -/
def validate_symbol (symbol : String) : Bool :=
  if symbol.data.isEmpty || symbol.length < 6 then false
  else (pyIsUpper symbol && pyIsAlpha symbol) || pyLast4 symbol == "USDT"

/-- `utils.validate_side`: the upper-cased side is BUY or SELL. -/
def validate_side (side : String) : Bool :=
  ["BUY", "SELL"].contains (pyUpper side)

/-- `utils.validate_order_type`: the upper-cased type is MARKET, LIMIT or
STOP_LIMIT. -/
def validate_order_type (order_type : String) : Bool :=
  ["MARKET", "LIMIT", "STOP_LIMIT"].contains (pyUpper order_type)

/-- `utils.validate_quantity` at the string interface: `float(quantity)`
succeeds and the value is strictly positive (a parse failure is caught and
returns `False`). -/
def validate_quantity (quantity : String) : Bool :=
  match pyFloat quantity with
  | some q => q.isPos
  | none => false

/-- `utils.validate_price` at the string interface: same rule as
`validate_quantity`. -/
def validate_price (price : String) : Bool :=
  match pyFloat price with
  | some p => p.isPos
  | none => false

/-- Python truthiness of an optional string: `None` and `""` are falsy. -/
def pyTruthy (o : Option String) : Bool :=
  match o with
  | none => false
  | some s => !(s == "")

/-- The Python condition `not price or not validate_price(price)` on an
optional string: `None` and `""` are falsy. -/
def priceMissingOrBad (price : Option String) : Bool :=
  match price with
  | none => true
  | some s => s == "" || !validate_price s

/-- The accumulated error list of `utils.parse_and_validate_inputs`
(lines 109-135): each rule is checked independently and appends its own
message. -/
def errList (symbol side order_type quantity : String)
    (price stop_price : Option String) : List String :=
  (if !validate_symbol symbol then ["Invalid symbol format (e.g., BTCUSDT)"] else []) ++
  (if !validate_side side then ["Side must be BUY or SELL"] else []) ++
  (if !validate_order_type order_type then
    ["Order type must be MARKET, LIMIT, or STOP_LIMIT"] else []) ++
  (if !validate_quantity quantity then ["Quantity must be a positive number"] else []) ++
  (if ["LIMIT", "STOP_LIMIT"].contains (pyUpper order_type) && priceMissingOrBad price then
    ["Price is required and must be positive for LIMIT orders"] else []) ++
  (if pyUpper order_type == "STOP_LIMIT" && priceMissingOrBad stop_price then
    ["Stop price is required and must be positive for STOP_LIMIT orders"] else [])

/-- Lines 147-151 of `utils.py`: `if price: validated_data[key] =
float(price)`.  A truthy (non-empty) string that `float` cannot parse
raises `ValueError`, modelled as `Except.error`. -/
def addOptFloat (key : String) (v : Option String) (d : List (String × PyVal)) :
    Except String (List (String × PyVal)) :=
  match v with
  | none => .ok d
  | some s =>
    if s == "" then .ok d
    else
      match pyFloat s with
      | none => .error "ValueError: could not convert string to float"
      | some q => .ok (d ++ [(key, PyVal.num q)])

/-- The dict built at lines 140-145 of `utils.py`: upper-cased symbol, side
and type, and the parsed quantity. -/
def baseData (symbol side order_type : String) (q : PyFloat) :
    List (String × PyVal) :=
  [("symbol", PyVal.str (pyUpper symbol)),
   ("side", PyVal.str (pyUpper side)),
   ("type", PyVal.str (pyUpper order_type)),
   ("quantity", PyVal.num q)]

/-- `utils.parse_and_validate_inputs`: returns
`(is_valid, error_message, validated_data)`, or `Except.error` when the
Python function raises. -/
def parse_and_validate_inputs (symbol side order_type quantity : String)
    (price stop_price : Option String) :
    Except String (Bool × String × List (String × PyVal)) :=
  let errors := errList symbol side order_type quantity price stop_price
  if errors.isEmpty then
    match pyFloat quantity with
    | none => .error "ValueError: could not convert string to float"
    | some q =>
      let base := baseData symbol side order_type q
      match addOptFloat "price" price base with
      | .error e => .error e
      | .ok d1 =>
        match addOptFloat "stopPrice" stop_price d1 with
        | .error e => .error e
        | .ok d2 => .ok (true, "", d2)
  else
    .ok (false, String.intercalate " | " errors, [])

/-- One keyword-argument record passed to
`client.futures_create_order` by `basic_bot.py` (the real-time `timestamp`
and the constant `recvWindow=60000` are the external SDK's clock-drift
parameters and are not part of the order content modelled here). -/
structure ClientCall where
  symbol : String
  side : String
  type : String
  timeInForce : Option String
  quantity : PyFloat
  price : Option PyFloat
  stopPrice : Option PyFloat
deriving DecidableEq

/-- `BasicBot.place_market_order` (basic_bot.py lines 75-82): the list of
client calls it performs. -/
def place_market_order (symbol side : String) (quantity : PyFloat) :
    List ClientCall :=
  [{ symbol := symbol, side := side, type := "MARKET", timeInForce := none,
     quantity := quantity, price := none, stopPrice := none }]

/-- `BasicBot.place_limit_order` (basic_bot.py lines 120-129). -/
def place_limit_order (symbol side : String) (quantity price : PyFloat) :
    List ClientCall :=
  [{ symbol := symbol, side := side, type := "LIMIT", timeInForce := some "GTC",
     quantity := quantity, price := some price, stopPrice := none }]

/-- `BasicBot.place_stop_limit_order` (basic_bot.py lines 176-186): mapped
to the exchange's `"STOP"` order type. -/
def place_stop_limit_order (symbol side : String)
    (quantity price stop_price : PyFloat) : List ClientCall :=
  [{ symbol := symbol, side := side, type := "STOP", timeInForce := some "GTC",
     quantity := quantity, price := some price, stopPrice := some stop_price }]

/-- Observable step of `bot.py main` (logging omitted: the spec treats it
as an out-of-scope sink). -/
inductive BotAction where
  | displayError (msg : String)
  | exitCode (n : Nat)
  | displayInfo (msg : String)
  | initClient
  | clientCall (c : ClientCall)
deriving DecidableEq

/-- The dispatch arm of `bot.py main` (lines 125-149): select the
submission operation by the `"type"` tag of `validated_data`, reading the
other arguments out of the dict.  A missing key is Python's `KeyError`; a
tag matching no arm leaves `order` unbound and is the `NameError` raised
at line 152. -/
def dispatchOrder (data : List (String × PyVal)) : Except String (List BotAction) :=
  match data.lookup "type" with
  | some (PyVal.str t) =>
    if t = "MARKET" then
      match data.lookup "symbol", data.lookup "side", data.lookup "quantity" with
      | some (PyVal.str sy), some (PyVal.str sd), some (PyVal.num q) =>
        .ok ((place_market_order sy sd q).map BotAction.clientCall)
      | _, _, _ => .error "KeyError"
    else if t = "LIMIT" then
      match data.lookup "symbol", data.lookup "side", data.lookup "quantity",
          data.lookup "price" with
      | some (PyVal.str sy), some (PyVal.str sd), some (PyVal.num q),
          some (PyVal.num p) =>
        .ok ((place_limit_order sy sd q p).map BotAction.clientCall)
      | _, _, _, _ => .error "KeyError"
    else if t = "STOP_LIMIT" then
      match data.lookup "symbol", data.lookup "side", data.lookup "quantity",
          data.lookup "price", data.lookup "stopPrice" with
      | some (PyVal.str sy), some (PyVal.str sd), some (PyVal.num q),
          some (PyVal.num p), some (PyVal.num sp) =>
        .ok ((place_stop_limit_order sy sd q p sp).map BotAction.clientCall)
      | _, _, _, _, _ => .error "KeyError"
    else .error "NameError"
  | _ => .error "KeyError"

/-- `bot.py main` (lines 105-149), up to and including the single client
call: validate; on failure display the aggregated message and exit with
code 1; on success construct the client and dispatch.  What happens after
the network call depends on the remote response and is outside the model;
an `Except.error` is an uncaught Python exception. -/
def mainTrace (symbol side order_type quantity : String)
    (price stop_price : Option String) : Except String (List BotAction) :=
  match parse_and_validate_inputs symbol side order_type quantity price stop_price with
  | .error e => .error e
  | .ok (false, msg, _) => .ok [BotAction.displayError msg, BotAction.exitCode 1]
  | .ok (true, _, data) =>
    match dispatchOrder data with
    | .error e => .error e
    | .ok calls =>
      .ok ([BotAction.displayInfo "Initializing Binance Futures client...",
            BotAction.initClient] ++ calls)

/-- The client calls occurring in a trace of `main`. -/
def clientCallsOf (acts : List BotAction) : List ClientCall :=
  acts.filterMap fun a =>
    match a with
    | BotAction.clientCall c => some c
    | _ => none

example : validate_symbol "BTCUSDT" = true := by decide
example : validate_symbol "BTC" = false := by decide
example : validate_quantity "1.5" = true := by decide
example : validate_quantity "abc" = false := by decide
example : validate_quantity "0" = false := by decide
example : validate_quantity "-0.5" = false := by decide
example : pyFloat "2e3" = some ⟨2000, 0⟩ := by decide
example : pyFloat ".5" = some ⟨5, 1⟩ := by decide
example : pyFloat "1." = some ⟨1, 0⟩ := by decide
example : pyFloat "." = none := by decide
example : pyFloat "" = none := by decide
example : pyFloat "-3.25" = some ⟨-325, 2⟩ := by decide
example : pyFloat "1e" = none := by decide
example : pyFloat "2e-2" = some ⟨2, 2⟩ := by decide
example : parse_and_validate_inputs "BTCUSDT" "BUY" "MARKET" "0.001" none none
    = .ok (true, "",
        [("symbol", PyVal.str "BTCUSDT"), ("side", PyVal.str "BUY"),
         ("type", PyVal.str "MARKET"), ("quantity", PyVal.num ⟨1, 3⟩)]) := by decide
example : parse_and_validate_inputs "BTC" "BUY" "MARKET" "0.001" none none
    = .ok (false, "Invalid symbol format (e.g., BTCUSDT)", []) := by decide
example : parse_and_validate_inputs "BTCUSDT" "BUY" "MARKET" "1" (some "abc") none
    = .error "ValueError: could not convert string to float" := by decide
example : parse_and_validate_inputs "BTCUSDT" "BUY" "MARKET" "1" (some "-5") (some "-7")
    = .ok (true, "",
        [("symbol", PyVal.str "BTCUSDT"), ("side", PyVal.str "BUY"),
         ("type", PyVal.str "MARKET"), ("quantity", PyVal.num ⟨1, 0⟩),
         ("price", PyVal.num ⟨-5, 0⟩), ("stopPrice", PyVal.num ⟨-7, 0⟩)]) := by decide
example : parse_and_validate_inputs "BTC" "HOLD" "FOO" "x" none none
    = .ok (false,
        "Invalid symbol format (e.g., BTCUSDT) | Side must be BUY or SELL | Order type must be MARKET, LIMIT, or STOP_LIMIT | Quantity must be a positive number",
        []) := by decide
example : mainTrace "BTC" "BUY" "MARKET" "1" none none
    = .ok [BotAction.displayError "Invalid symbol format (e.g., BTCUSDT)", BotAction.exitCode 1] := by decide
example : mainTrace "BTCUSDT" "SELL" "limit" "0.1" (some "2000") none
    = .ok [BotAction.displayInfo "Initializing Binance Futures client...",
           BotAction.initClient,
           BotAction.clientCall
             { symbol := "BTCUSDT", side := "SELL", type := "LIMIT",
               timeInForce := some "GTC", quantity := ⟨1, 1⟩,
               price := some ⟨2000, 0⟩, stopPrice := none }] := by decide
example : mainTrace "BNBUSDT" "BUY" "STOP_LIMIT" "1" (some "300") (some "295")
    = .ok [BotAction.displayInfo "Initializing Binance Futures client...",
           BotAction.initClient,
           BotAction.clientCall
             { symbol := "BNBUSDT", side := "BUY", type := "STOP",
               timeInForce := some "GTC", quantity := ⟨1, 0⟩,
               price := some ⟨300, 0⟩, stopPrice := some ⟨295, 0⟩ }] := by decide

/-! ## Lemmas about the model -/

/-- `PyFloat.isPos` agrees with positivity of the denoted rational. -/
theorem PyFloat.isPos_iff (x : PyFloat) : x.isPos = true ↔ 0 < x.toRat := by
  have hp : (0 : Rat) < (10 : Rat) ^ x.exp := by positivity
  simp only [PyFloat.isPos, PyFloat.toRat, decide_eq_true_eq]
  rw [lt_div_iff₀ hp, zero_mul, Int.cast_pos]

/-- `float("")` raises `ValueError`. -/
theorem pyFloat_empty : pyFloat "" = none := by decide

/-- An `if`-guarded singleton list is empty exactly when the guard is
false. -/
theorem if_singleton_eq_nil {b : Bool} {m : String} :
    ((if b = true then [m] else []) = []) ↔ b = false := by
  cases b <;> simp

/-- Membership in an `if`-guarded singleton list. -/
theorem mem_if_singleton {b : Bool} {m x : String} :
    (x ∈ if b = true then [m] else []) ↔ (b = true ∧ x = m) := by
  cases b <;> simp

/-- The error list is empty exactly when every field rule passes. -/
theorem errList_eq_nil_iff {sym sd ot qt : String} {p sp : Option String} :
    errList sym sd ot qt p sp = [] ↔
      (validate_symbol sym = true ∧ validate_side sd = true ∧
       validate_order_type ot = true ∧ validate_quantity qt = true ∧
       (["LIMIT", "STOP_LIMIT"].contains (pyUpper ot) && priceMissingOrBad p) = false ∧
       (pyUpper ot == "STOP_LIMIT" && priceMissingOrBad sp) = false) := by
  simp only [errList, List.append_eq_nil, if_singleton_eq_nil, Bool.not_eq_false']
  tauto

/-- Membership in the error list, rule by rule. -/
theorem mem_errList_iff {x : String} {sym sd ot qt : String} {p sp : Option String} :
    x ∈ errList sym sd ot qt p sp ↔
      (validate_symbol sym = false ∧ x = "Invalid symbol format (e.g., BTCUSDT)") ∨
      (validate_side sd = false ∧ x = "Side must be BUY or SELL") ∨
      (validate_order_type ot = false ∧ x = "Order type must be MARKET, LIMIT, or STOP_LIMIT") ∨
      (validate_quantity qt = false ∧ x = "Quantity must be a positive number") ∨
      ((["LIMIT", "STOP_LIMIT"].contains (pyUpper ot) && priceMissingOrBad p) = true ∧
        x = "Price is required and must be positive for LIMIT orders") ∨
      ((pyUpper ot == "STOP_LIMIT" && priceMissingOrBad sp) = true ∧
        x = "Stop price is required and must be positive for STOP_LIMIT orders") := by
  simp only [errList, List.mem_append, mem_if_singleton]
  simp only [Bool.not_eq_true']
  tauto

/-- Every message in the error list is non-empty. -/
theorem errList_msg_ne_empty {x : String} {sym sd ot qt : String} {p sp : Option String}
    (hx : x ∈ errList sym sd ot qt p sp) : x ≠ "" := by
  rcases mem_errList_iff.mp hx with h | h | h | h | h | h <;>
    (rw [h.2]; decide)

/-- The accumulator is a lower bound on the length of
`String.intercalate.go`. -/
theorem intercalate_go_length (sep : String) (t : List String) :
    ∀ acc : String, acc.length ≤ (String.intercalate.go acc sep t).length := by
  induction t with
  | nil => intro acc; simp [String.intercalate.go]
  | cons a as ih =>
    intro acc
    calc acc.length ≤ (acc ++ sep ++ a).length := by
          simp only [String.length_append]; omega
      _ ≤ (String.intercalate.go (acc ++ sep ++ a) sep as).length := ih _
      _ = (String.intercalate.go acc sep (a :: as)).length := by
          rw [String.intercalate.go]

/-- Joining a list whose first message is non-empty gives a non-empty
string. -/
theorem intercalate_ne_empty {a : String} (t : List String) (ha : a ≠ "") :
    String.intercalate " | " (a :: t) ≠ "" := by
  intro hc
  have h1 : a.length ≤ (String.intercalate " | " (a :: t)).length := by
    rw [String.intercalate]
    exact intercalate_go_length _ _ _
  rw [hc] at h1
  apply ha
  have h2 : a.data.length = 0 := Nat.le_zero.mp h1
  exact String.ext_iff.mpr (List.length_eq_zero.mp h2)

/-- A character is uppercase exactly when it is alphabetic and not
lowercase (ASCII ranges). -/
theorem pyIsUpperChar_iff {c : Char} :
    pyIsUpperChar c = true ↔ (pyIsAlphaChar c = true ∧ pyIsLowerChar c = false) := by
  simp only [pyIsAlphaChar, pyIsUpperChar, pyIsLowerChar, Bool.and_eq_true,
    Bool.or_eq_true, Bool.and_eq_false_iff, decide_eq_true_eq, decide_eq_false_iff_not,
    not_le]
  omega

/-- For a non-empty string, `isupper() and isalpha()` says exactly that
every character is an uppercase letter. -/
theorem isUpper_and_isAlpha_iff {s : String} (hne : s.data ≠ []) :
    (pyIsUpper s && pyIsAlpha s) = true ↔ ∀ c ∈ s.data, pyIsUpperChar c = true := by
  simp only [pyIsUpper, pyIsAlpha, Bool.and_eq_true, Bool.not_eq_true',
    List.any_eq_true, List.any_eq_false, List.all_eq_true, List.isEmpty_eq_false]
  constructor
  · rintro ⟨⟨_, hnolow⟩, _, hall⟩ c hc
    exact pyIsUpperChar_iff.mpr ⟨hall c hc,
      Bool.eq_false_iff.mpr (hnolow c hc)⟩
  · intro h
    obtain ⟨c0, cs, hcons⟩ := List.exists_cons_of_ne_nil hne
    refine ⟨⟨⟨c0, by rw [hcons]; exact List.mem_cons_self _ _,
      (pyIsUpperChar_iff.mp (h c0 (by rw [hcons]; exact List.mem_cons_self _ _))).1⟩, ?_⟩,
      hne, fun c hc => (pyIsUpperChar_iff.mp (h c hc)).1⟩
    intro c hc
    exact Bool.eq_false_iff.mp (pyIsUpperChar_iff.mp (h c hc)).2

/-- Characterization of a fixed suffix through `List.drop`. -/
theorem drop_length_sub_eq_iff {l suf : List Char} (h : suf.length ≤ l.length) :
    l.drop (l.length - suf.length) = suf ↔ ∃ t, l = t ++ suf := by
  constructor
  · intro hd
    refine ⟨l.take (l.length - suf.length), ?_⟩
    conv_lhs => rw [← List.take_append_drop (l.length - suf.length) l]
    rw [hd]
  · rintro ⟨t, rfl⟩
    rw [List.length_append, Nat.add_sub_cancel, List.drop_left]

/-- The `symbol[-4:] == "USDT"` test says exactly that the symbol ends in
`"USDT"`, for symbols of length at least 4. -/
theorem pyLast4_eq_usdt_iff {s : String} (h : 4 ≤ s.data.length) :
    (pyLast4 s == "USDT") = true ↔ ∃ t : String, s = t ++ "USDT" := by
  rw [beq_iff_eq]
  unfold pyLast4
  constructor
  · intro hd
    have hdata : s.data.drop (s.data.length - 4) = "USDT".data :=
      congrArg String.data hd
    obtain ⟨t, ht⟩ := (@drop_length_sub_eq_iff s.data "USDT".data h).mp hdata
    exact ⟨⟨t⟩, String.ext_iff.mpr (by simpa using ht)⟩
  · rintro ⟨t, rfl⟩
    have hdata : (t ++ "USDT").data = t.data ++ "USDT".data := String.data_append t "USDT"
    apply String.ext
    rw [hdata]
    exact (@drop_length_sub_eq_iff (t ++ "USDT").data "USDT".data h).mpr ⟨t.data, by rw [← hdata]⟩

/-- Elimination for the optional-price copying step: it succeeds either by
skipping a falsy value or by appending the parsed float. -/
theorem addOptFloat_ok_elim {k : String} {v : Option String}
    {d d2 : List (String × PyVal)} (h : addOptFloat k v d = .ok d2) :
    (pyTruthy v = false ∧ d2 = d) ∨
    (∃ s q, v = some s ∧ (s == "") = false ∧ pyFloat s = some q ∧
      d2 = d ++ [(k, PyVal.num q)]) := by
  cases v with
  | none =>
    left
    refine ⟨rfl, ?_⟩
    simpa [addOptFloat] using h.symm
  | some s =>
    simp only [addOptFloat] at h
    by_cases hs : (s == "") = true
    · rw [if_pos hs] at h
      left
      exact ⟨by simp [pyTruthy, hs], (Except.ok.inj h).symm⟩
    · rw [if_neg hs] at h
      cases hq : pyFloat s with
      | none => rw [hq] at h; exact absurd h (by simp)
      | some q =>
        rw [hq] at h
        right
        exact ⟨s, q, rfl, Bool.eq_false_iff.mpr hs, hq, (Except.ok.inj h).symm⟩

/-- Introduction for the optional-price copying step on a truthy parseable
value. -/
theorem addOptFloat_some {k s : String} {q : PyFloat} {d : List (String × PyVal)}
    (hs : (s == "") = false) (hq : pyFloat s = some q) :
    addOptFloat k (some s) d = .ok (d ++ [(k, PyVal.num q)]) := by
  simp [addOptFloat, hs, hq]

/-- The copying step cannot raise when any truthy value parses. -/
theorem addOptFloat_total {k : String} {v : Option String}
    (d : List (String × PyVal))
    (hv : ∀ s, v = some s → s ≠ "" → (pyFloat s).isSome = true) :
    ∃ d2, addOptFloat k v d = .ok d2 ∧
      ((pyTruthy v = false ∧ d2 = d) ∨
       (∃ s q, v = some s ∧ pyFloat s = some q ∧
         d2 = d ++ [(k, PyVal.num q)])) := by
  cases v with
  | none => exact ⟨d, rfl, Or.inl ⟨rfl, rfl⟩⟩
  | some s =>
    by_cases hs : s = ""
    · subst hs
      exact ⟨d, rfl, Or.inl ⟨rfl, rfl⟩⟩
    · obtain ⟨q, hq⟩ := Option.isSome_iff_exists.mp (hv s rfl hs)
      exact ⟨d ++ [(k, PyVal.num q)],
        addOptFloat_some (beq_eq_false_iff_ne.mpr hs) hq,
        Or.inr ⟨s, q, rfl, hq, rfl⟩⟩

/-- A passing quantity check means the string parses to a positive
float. -/
theorem validate_quantity_elim {s : String} (h : validate_quantity s = true) :
    ∃ q, pyFloat s = some q ∧ q.isPos = true := by
  unfold validate_quantity at h
  cases hq : pyFloat s with
  | none => rw [hq] at h; exact absurd h (by simp)
  | some q => rw [hq] at h; exact ⟨q, rfl, h⟩

/-- A passing price check on a string parsing to `q` means `q` is
positive. -/
theorem validate_price_pos {s : String} {q : PyFloat} (hq : pyFloat s = some q)
    (hv : validate_price s = true) : 0 < q.toRat := by
  unfold validate_price at hv
  rw [hq] at hv
  exact (PyFloat.isPos_iff q).mp hv

/-- When the `not price or not validate_price(price)` test passes, the
price is a truthy string that parses to a positive float. -/
theorem priceMissingOrBad_false_elim {p : Option String}
    (h : priceMissingOrBad p = false) :
    ∃ s, p = some s ∧ (s == "") = false ∧ validate_price s = true := by
  cases p with
  | none => exact absurd h (by simp [priceMissingOrBad])
  | some s =>
    simp only [priceMissingOrBad, Bool.or_eq_false_iff, Bool.not_eq_false'] at h
    exact ⟨s, rfl, h.1, h.2⟩

/-- An absent, empty, unparseable or non-positive optional price fails the
`not price or not validate_price(price)` test. -/
theorem priceMissingOrBad_of_bad {p : Option String}
    (hp : p = none ∨ p = some "" ∨ ∃ s, p = some s ∧
      (pyFloat s = none ∨ ∃ q, pyFloat s = some q ∧ q.toRat ≤ 0)) :
    priceMissingOrBad p = true := by
  rcases hp with rfl | rfl | ⟨s, rfl, hn | ⟨q, hq, hle⟩⟩
  · rfl
  · rfl
  · simp [priceMissingOrBad, validate_price, hn]
  · have hfalse : q.isPos = false :=
      Bool.eq_false_iff.mpr fun ht =>
        absurd ((PyFloat.isPos_iff q).mp ht) (not_lt.mpr hle)
    simp [priceMissingOrBad, validate_price, hq, hfalse]

/-- On any rule violation, the validator returns `False`, the joined
message and the empty dict. -/
theorem parse_fail {sym sd ot qt : String} {p sp : Option String}
    (h : errList sym sd ot qt p sp ≠ []) :
    parse_and_validate_inputs sym sd ot qt p sp
      = .ok (false, String.intercalate " | " (errList sym sd ot qt p sp), []) := by
  rw [parse_and_validate_inputs, if_neg]
  simpa [List.isEmpty_iff] using h

/-- Introduction for the success path of the validator. -/
theorem parse_ok_true_intro {sym sd ot qt : String} {p sp : Option String}
    {q : PyFloat} {d1 d2 : List (String × PyVal)}
    (herr : errList sym sd ot qt p sp = [])
    (hq : pyFloat qt = some q)
    (h1 : addOptFloat "price" p (baseData sym sd ot q) = .ok d1)
    (h2 : addOptFloat "stopPrice" sp d1 = .ok d2) :
    parse_and_validate_inputs sym sd ot qt p sp = .ok (true, "", d2) := by
  rw [parse_and_validate_inputs, if_pos (by simp [herr])]
  simp only [hq, h1, h2]

/-- Elimination for the validator: a normal return is either the failure
triple or the success triple built from the parsed fields. -/
theorem parse_ok_elim {sym sd ot qt : String} {p sp : Option String}
    {valid : Bool} {msg : String} {data : List (String × PyVal)}
    (h : parse_and_validate_inputs sym sd ot qt p sp = .ok (valid, msg, data)) :
    (errList sym sd ot qt p sp ≠ [] ∧ valid = false ∧
      msg = String.intercalate " | " (errList sym sd ot qt p sp) ∧ data = []) ∨
    (errList sym sd ot qt p sp = [] ∧ valid = true ∧ msg = "" ∧
      ∃ q d1, pyFloat qt = some q ∧
        addOptFloat "price" p (baseData sym sd ot q) = .ok d1 ∧
        addOptFloat "stopPrice" sp d1 = .ok data) := by
  by_cases he : errList sym sd ot qt p sp = []
  · right
    rw [parse_and_validate_inputs, if_pos (by simp [he])] at h
    cases hq : pyFloat qt with
    | none => simp only [hq] at h; exact Except.noConfusion h
    | some q =>
      simp only [hq] at h
      cases h1 : addOptFloat "price" p (baseData sym sd ot q) with
      | error e => simp only [h1] at h; exact Except.noConfusion h
      | ok d1 =>
        simp only [h1] at h
        cases h2 : addOptFloat "stopPrice" sp d1 with
        | error e => simp only [h2] at h; exact Except.noConfusion h
        | ok d2 =>
          simp only [h2, Except.ok.injEq, Prod.mk.injEq] at h
          obtain ⟨hv, hm, hd⟩ := h
          exact ⟨he, hv.symm, hm.symm, q, d1, rfl, h1, hd ▸ h2⟩
  · left
    rw [parse_fail he] at h
    simp only [Except.ok.injEq, Prod.mk.injEq] at h
    obtain ⟨hv, hm, hd⟩ := h
    exact ⟨he, hv.symm, hm.symm, hd.symm⟩

/-! ## The claims -/

/-- C2: the spec requires the validator to be total — for every combination
of string inputs it must return Valid or Invalid and never raise, a
non-numeric value in any numeric field being a validation failure.  The
code violates this: a MARKET order with all checked fields valid and a
supplied non-numeric price skips the price rule (it only applies to
LIMIT/STOP_LIMIT) and then raises `ValueError` in the unguarded
`float(price)` at utils.py line 148. -/
theorem claim2_validator_not_total :
    parse_and_validate_inputs "BTCUSDT" "BUY" "MARKET" "1" (some "abc") none
      = .error "ValueError: could not convert string to float" := by decide

/-- C3: on any invocation whose inputs fail validation, `main` displays the
aggregated error message and exits with code 1; the trace contains no
client construction and no client call, so a validation error never
reaches the network. -/
theorem claim3_validation_short_circuits {sym sd ot qt : String}
    {p sp : Option String} {msg : String} {data : List (String × PyVal)}
    (h : parse_and_validate_inputs sym sd ot qt p sp = .ok (false, msg, data)) :
    mainTrace sym sd ot qt p sp
      = .ok [BotAction.displayError msg, BotAction.exitCode 1] ∧
    BotAction.initClient ∉ [BotAction.displayError msg, BotAction.exitCode 1] ∧
    clientCallsOf [BotAction.displayError msg, BotAction.exitCode 1] = [] := by
  refine ⟨?_, ?_, rfl⟩
  · simp only [mainTrace, h]
  · intro hm
    rcases List.mem_cons.mp hm with h1 | hm2
    · exact BotAction.noConfusion h1
    · rcases List.mem_cons.mp hm2 with h1 | hm3
      · exact BotAction.noConfusion h1
      · exact List.not_mem_nil _ hm3

/-- Witness for C3 at the spec's own end-to-end example of an invalid
symbol. -/
theorem claim3_witness :
    mainTrace "BTC" "BUY" "MARKET" "1" none none
      = .ok [BotAction.displayError "Invalid symbol format (e.g., BTCUSDT)",
             BotAction.exitCode 1] ∧
    BotAction.initClient ∉
      [BotAction.displayError "Invalid symbol format (e.g., BTCUSDT)",
       BotAction.exitCode 1] ∧
    clientCallsOf [BotAction.displayError "Invalid symbol format (e.g., BTCUSDT)",
       BotAction.exitCode 1] = [] :=
  @claim3_validation_short_circuits "BTC" "BUY" "MARKET" "1" none none
    "Invalid symbol format (e.g., BTCUSDT)" [] (by decide)

/-- C4: whenever at least one field rule is violated, the validator returns
`False` with the empty dict and the pipe-joined concatenation of all
violated rules' messages; each rule's message appears in the error list
exactly when that rule is violated, so errors accumulate rather than
short-circuit. -/
theorem claim4_errors_accumulate (sym sd ot qt : String) (p sp : Option String)
    (h : errList sym sd ot qt p sp ≠ []) :
    parse_and_validate_inputs sym sd ot qt p sp
      = .ok (false, String.intercalate " | " (errList sym sd ot qt p sp), []) ∧
    (validate_symbol sym = false ↔
      "Invalid symbol format (e.g., BTCUSDT)" ∈ errList sym sd ot qt p sp) ∧
    (validate_side sd = false ↔
      "Side must be BUY or SELL" ∈ errList sym sd ot qt p sp) ∧
    (validate_order_type ot = false ↔
      "Order type must be MARKET, LIMIT, or STOP_LIMIT" ∈ errList sym sd ot qt p sp) ∧
    (validate_quantity qt = false ↔
      "Quantity must be a positive number" ∈ errList sym sd ot qt p sp) ∧
    ((["LIMIT", "STOP_LIMIT"].contains (pyUpper ot) && priceMissingOrBad p) = true ↔
      "Price is required and must be positive for LIMIT orders"
        ∈ errList sym sd ot qt p sp) ∧
    ((pyUpper ot == "STOP_LIMIT" && priceMissingOrBad sp) = true ↔
      "Stop price is required and must be positive for STOP_LIMIT orders"
        ∈ errList sym sd ot qt p sp) := by
  refine ⟨parse_fail h, ?_, ?_, ?_, ?_, ?_, ?_⟩ <;> simp [mem_errList_iff]

/-- Witness for C4 at an input violating the first four rules at once. -/
theorem claim4_witness :
    parse_and_validate_inputs "BTC" "HOLD" "FOO" "x" none none
      = .ok (false, String.intercalate " | " (errList "BTC" "HOLD" "FOO" "x" none none), []) ∧
    (validate_symbol "BTC" = false ↔
      "Invalid symbol format (e.g., BTCUSDT)" ∈ errList "BTC" "HOLD" "FOO" "x" none none) ∧
    (validate_side "HOLD" = false ↔
      "Side must be BUY or SELL" ∈ errList "BTC" "HOLD" "FOO" "x" none none) ∧
    (validate_order_type "FOO" = false ↔
      "Order type must be MARKET, LIMIT, or STOP_LIMIT" ∈ errList "BTC" "HOLD" "FOO" "x" none none) ∧
    (validate_quantity "x" = false ↔
      "Quantity must be a positive number" ∈ errList "BTC" "HOLD" "FOO" "x" none none) ∧
    ((["LIMIT", "STOP_LIMIT"].contains (pyUpper "FOO") && priceMissingOrBad none) = true ↔
      "Price is required and must be positive for LIMIT orders"
        ∈ errList "BTC" "HOLD" "FOO" "x" none none) ∧
    ((pyUpper "FOO" == "STOP_LIMIT" && priceMissingOrBad none) = true ↔
      "Stop price is required and must be positive for STOP_LIMIT orders"
        ∈ errList "BTC" "HOLD" "FOO" "x" none none) :=
  claim4_errors_accumulate "BTC" "HOLD" "FOO" "x" none none (by decide)

/-- C5: `validate_symbol` accepts exactly the non-empty symbols of length
at least 6 that are either entirely uppercase alphabetic or end in the
literal suffix "USDT"; consequently every symbol shorter than 6 characters
makes the validator report the "Invalid symbol" violation. -/
theorem claim5_symbol_rule (symbol : String) :
    (validate_symbol symbol = true ↔
      (symbol ≠ "" ∧ 6 ≤ symbol.length ∧
        ((∀ c ∈ symbol.data, pyIsUpperChar c = true) ∨
          ∃ t : String, symbol = t ++ "USDT"))) ∧
    (∀ side order_type quantity price stop_price, symbol.length < 6 →
      "Invalid symbol format (e.g., BTCUSDT)" ∈
        errList symbol side order_type quantity price stop_price) := by
  constructor
  · unfold validate_symbol
    by_cases hg : (symbol.data.isEmpty || decide (symbol.length < 6)) = true
    · rw [if_pos hg]
      simp only [Bool.false_eq_true, false_iff]
      rintro ⟨hne, hlen, _⟩
      rcases Bool.or_eq_true_iff.mp hg with hemp | hlt
      · exact hne (String.ext_iff.mpr (List.isEmpty_iff.mp hemp))
      · exact absurd hlen (not_le.mpr (of_decide_eq_true hlt))
    · rw [if_neg hg]
      have hor := Bool.or_eq_false_iff.mp (Bool.eq_false_iff.mpr hg)
      have hne : symbol.data ≠ [] := List.isEmpty_eq_false.mp hor.1
      have hlen : 6 ≤ symbol.length := not_lt.mp (of_decide_eq_false hor.2)
      have hlen4 : 4 ≤ symbol.data.length := le_trans (by norm_num) hlen
      rw [Bool.or_eq_true, isUpper_and_isAlpha_iff hne, pyLast4_eq_usdt_iff hlen4]
      constructor
      · intro hd
        exact ⟨fun hc => hne (congrArg String.data hc), hlen, hd⟩
      · rintro ⟨_, _, hd⟩
        exact hd
  · intro side order_type quantity price stop_price hlen
    have hfalse : validate_symbol symbol = false := by
      unfold validate_symbol
      rw [if_pos (Bool.or_eq_true_iff.mpr (Or.inr (decide_eq_true hlen)))]
    exact mem_errList_iff.mpr (Or.inl ⟨hfalse, rfl⟩)

/-- Witness for C5 at the too-short symbol "BTC". -/
theorem claim5_witness :
    ("BTC" : String).length < 6 ∧
    "Invalid symbol format (e.g., BTCUSDT)"
      ∈ errList "BTC" "BUY" "MARKET" "0.001" none none :=
  ⟨by decide, (claim5_symbol_rule "BTC").2 "BUY" "MARKET" "0.001" none none (by decide)⟩

/-- C6: for any order whose type upper-cases to LIMIT or STOP_LIMIT and
whose price is absent, empty, non-numeric or not strictly positive, the
validator reports the price violation and returns `False` (never a Valid
result), whatever the other fields are. -/
theorem claim6_price_required (sym sd ot qt : String) (p sp : Option String)
    (hot : pyUpper ot = "LIMIT" ∨ pyUpper ot = "STOP_LIMIT")
    (hp : p = none ∨ p = some "" ∨ ∃ s, p = some s ∧
      (pyFloat s = none ∨ ∃ q, pyFloat s = some q ∧ q.toRat ≤ 0)) :
    "Price is required and must be positive for LIMIT orders"
      ∈ errList sym sd ot qt p sp ∧
    parse_and_validate_inputs sym sd ot qt p sp
      = .ok (false, String.intercalate " | " (errList sym sd ot qt p sp), []) := by
  have hcont : (["LIMIT", "STOP_LIMIT"].contains (pyUpper ot)) = true := by
    rcases hot with h | h <;> rw [h] <;> decide
  have hbad := priceMissingOrBad_of_bad hp
  have hmem : "Price is required and must be positive for LIMIT orders"
      ∈ errList sym sd ot qt p sp :=
    mem_errList_iff.mpr (Or.inr (Or.inr (Or.inr (Or.inr (Or.inl
      ⟨Bool.and_eq_true_iff.mpr ⟨hcont, hbad⟩, rfl⟩)))))
  refine ⟨hmem, parse_fail fun hnil => ?_⟩
  rw [hnil] at hmem
  exact List.not_mem_nil _ hmem

/-- Witness for C6: a LIMIT order with no price at all. -/
theorem claim6_witness :
    "Price is required and must be positive for LIMIT orders"
      ∈ errList "BTCUSDT" "BUY" "LIMIT" "1" none none ∧
    parse_and_validate_inputs "BTCUSDT" "BUY" "LIMIT" "1" none none
      = .ok (false,
          String.intercalate " | " (errList "BTCUSDT" "BUY" "LIMIT" "1" none none),
          []) :=
  claim6_price_required "BTCUSDT" "BUY" "LIMIT" "1" none none
    (Or.inl (by decide)) (Or.inl rfl)

/-- C7: for any order whose type upper-cases to STOP_LIMIT and whose stop
price is absent, empty, non-numeric or not strictly positive, the
validator reports the stop-price violation — a message distinct from the
price violation — and returns `False`. -/
theorem claim7_stop_price_required (sym sd ot qt : String) (p sp : Option String)
    (hot : pyUpper ot = "STOP_LIMIT")
    (hsp : sp = none ∨ sp = some "" ∨ ∃ s, sp = some s ∧
      (pyFloat s = none ∨ ∃ q, pyFloat s = some q ∧ q.toRat ≤ 0)) :
    "Stop price is required and must be positive for STOP_LIMIT orders"
      ∈ errList sym sd ot qt p sp ∧
    "Stop price is required and must be positive for STOP_LIMIT orders"
      ≠ "Price is required and must be positive for LIMIT orders" ∧
    parse_and_validate_inputs sym sd ot qt p sp
      = .ok (false, String.intercalate " | " (errList sym sd ot qt p sp), []) := by
  have heq : (pyUpper ot == "STOP_LIMIT") = true := by rw [hot]; decide
  have hbad := priceMissingOrBad_of_bad hsp
  have hmem : "Stop price is required and must be positive for STOP_LIMIT orders"
      ∈ errList sym sd ot qt p sp :=
    mem_errList_iff.mpr (Or.inr (Or.inr (Or.inr (Or.inr (Or.inr
      ⟨Bool.and_eq_true_iff.mpr ⟨heq, hbad⟩, rfl⟩)))))
  refine ⟨hmem, by decide, parse_fail fun hnil => ?_⟩
  rw [hnil] at hmem
  exact List.not_mem_nil _ hmem

/-- Witness for C7: a STOP_LIMIT order with a valid price but no stop
price. -/
theorem claim7_witness :
    "Stop price is required and must be positive for STOP_LIMIT orders"
      ∈ errList "BTCUSDT" "BUY" "STOP_LIMIT" "1" (some "300") none ∧
    "Stop price is required and must be positive for STOP_LIMIT orders"
      ≠ "Price is required and must be positive for LIMIT orders" ∧
    parse_and_validate_inputs "BTCUSDT" "BUY" "STOP_LIMIT" "1" (some "300") none
      = .ok (false,
          String.intercalate " | "
            (errList "BTCUSDT" "BUY" "STOP_LIMIT" "1" (some "300") none),
          []) :=
  claim7_stop_price_required "BTCUSDT" "BUY" "STOP_LIMIT" "1" (some "300") none
    (by decide) (Or.inl rfl)

/-- C8: the dispatcher selects the submission operation by orderType tag
and performs exactly one client call per submission: MARKET passes symbol,
side and quantity only; LIMIT adds the price and the GTC time-in-force;
STOP_LIMIT adds price and stopPrice with GTC and maps to the exchange's
"STOP" order type. -/
theorem claim8_dispatch_by_tag (sy sd : String) (q p sp : PyFloat) :
    place_market_order sy sd q =
      [{ symbol := sy, side := sd, type := "MARKET", timeInForce := none,
         quantity := q, price := none, stopPrice := none }] ∧
    place_limit_order sy sd q p =
      [{ symbol := sy, side := sd, type := "LIMIT", timeInForce := some "GTC",
         quantity := q, price := some p, stopPrice := none }] ∧
    place_stop_limit_order sy sd q p sp =
      [{ symbol := sy, side := sd, type := "STOP", timeInForce := some "GTC",
         quantity := q, price := some p, stopPrice := some sp }] ∧
    (place_market_order sy sd q).length = 1 ∧
    (place_limit_order sy sd q p).length = 1 ∧
    (place_stop_limit_order sy sd q p sp).length = 1 ∧
    dispatchOrder [("symbol", PyVal.str sy), ("side", PyVal.str sd),
        ("type", PyVal.str "MARKET"), ("quantity", PyVal.num q)]
      = .ok ((place_market_order sy sd q).map BotAction.clientCall) ∧
    dispatchOrder [("symbol", PyVal.str sy), ("side", PyVal.str sd),
        ("type", PyVal.str "LIMIT"), ("quantity", PyVal.num q),
        ("price", PyVal.num p)]
      = .ok ((place_limit_order sy sd q p).map BotAction.clientCall) ∧
    dispatchOrder [("symbol", PyVal.str sy), ("side", PyVal.str sd),
        ("type", PyVal.str "STOP_LIMIT"), ("quantity", PyVal.num q),
        ("price", PyVal.num p), ("stopPrice", PyVal.num sp)]
      = .ok ((place_stop_limit_order sy sd q p sp).map BotAction.clientCall) :=
  ⟨rfl, rfl, rfl, rfl, rfl, rfl, rfl, rfl, rfl⟩

/-- C1 as stated is false: a successful MARKET validation copies any
supplied price/stopPrice into the output, so a Valid result can contain a
price field although the order type is neither LIMIT nor STOP_LIMIT, and
that price can be negative. -/
theorem claim1_counterexample :
    parse_and_validate_inputs "BTCUSDT" "BUY" "MARKET" "1" (some "-5") (some "-7")
      = .ok (true, "",
          [("symbol", PyVal.str "BTCUSDT"), ("side", PyVal.str "BUY"),
           ("type", PyVal.str "MARKET"), ("quantity", PyVal.num ⟨1, 0⟩),
           ("price", PyVal.num ⟨-5, 0⟩), ("stopPrice", PyVal.num ⟨-7, 0⟩)]) ∧
    (List.lookup "price"
        [("symbol", PyVal.str "BTCUSDT"), ("side", PyVal.str "BUY"),
         ("type", PyVal.str "MARKET"), ("quantity", PyVal.num ⟨1, 0⟩),
         ("price", PyVal.num ⟨-5, 0⟩), ("stopPrice", PyVal.num ⟨-7, 0⟩)]).isSome
      = true ∧
    (["LIMIT", "STOP_LIMIT"].contains (pyUpper "MARKET")) = false ∧
    PyFloat.toRat ⟨-5, 0⟩ < 0 := by
  refine ⟨by decide, by decide, by decide, ?_⟩
  norm_num [PyFloat.toRat]

/-- C1 (amended): on every successful validation the output contains a
price (resp. stopPrice) field exactly when a truthy price (resp.
stop_price) string was supplied; when the order type upper-cases to LIMIT
or STOP_LIMIT the price field is present and strictly positive, and when
it upper-cases to STOP_LIMIT the stopPrice field is present and strictly
positive.  (For MARKET orders supplied values are copied with no
positivity check.) -/
theorem claim1_amended {sym sd ot qt : String} {p sp : Option String}
    {msg : String} {data : List (String × PyVal)}
    (h : parse_and_validate_inputs sym sd ot qt p sp = .ok (true, msg, data)) :
    ((data.lookup "price").isSome = pyTruthy p) ∧
    ((data.lookup "stopPrice").isSome = pyTruthy sp) ∧
    ((["LIMIT", "STOP_LIMIT"].contains (pyUpper ot)) = true →
      ∃ q, data.lookup "price" = some (PyVal.num q) ∧ 0 < q.toRat) ∧
    (pyUpper ot = "STOP_LIMIT" →
      ∃ q, data.lookup "stopPrice" = some (PyVal.num q) ∧ 0 < q.toRat) := by
  rcases parse_ok_elim h with ⟨_, hfalse, _, _⟩ | ⟨he, _, _, q, d1, hq, h1, h2⟩
  · exact Bool.noConfusion hfalse
  obtain ⟨_, _, _, _, hpc, hsc⟩ := errList_eq_nil_iff.mp he
  have hplim : (["LIMIT", "STOP_LIMIT"].contains (pyUpper ot)) = true →
      ∃ s, p = some s ∧ (s == "") = false ∧ validate_price s = true := by
    intro hlim
    rw [hlim, Bool.true_and] at hpc
    exact priceMissingOrBad_false_elim hpc
  have hpstop : pyUpper ot = "STOP_LIMIT" →
      ∃ s, sp = some s ∧ (s == "") = false ∧ validate_price s = true := by
    intro hstop
    rw [show (pyUpper ot == "STOP_LIMIT") = true from by rw [hstop]; decide,
      Bool.true_and] at hsc
    exact priceMissingOrBad_false_elim hsc
  rcases addOptFloat_ok_elim h1 with ⟨hf1, rfl⟩ | ⟨s1, q1, hp1, hs1, hq1, rfl⟩
  · rcases addOptFloat_ok_elim h2 with ⟨hf2, rfl⟩ | ⟨s2, q2, hp2, hs2, hq2, rfl⟩
    · refine ⟨by rw [hf1]; rfl, by rw [hf2]; rfl, ?_, ?_⟩
      · intro hlim
        obtain ⟨s, hps, hse, _⟩ := hplim hlim
        rw [hps] at hf1
        simp only [pyTruthy, Bool.not_eq_false'] at hf1
        rw [hf1] at hse
        exact Bool.noConfusion hse
      · intro hstop
        obtain ⟨s, hps, hse, _⟩ := hpstop hstop
        rw [hps] at hf2
        simp only [pyTruthy, Bool.not_eq_false'] at hf2
        rw [hf2] at hse
        exact Bool.noConfusion hse
    · refine ⟨by rw [hf1]; rfl, ?_, ?_, ?_⟩
      · rw [hp2]
        show true = !(s2 == "")
        rw [hs2]
        rfl
      · intro hlim
        obtain ⟨s, hps, hse, _⟩ := hplim hlim
        rw [hps] at hf1
        simp only [pyTruthy, Bool.not_eq_false'] at hf1
        rw [hf1] at hse
        exact Bool.noConfusion hse
      · intro hstop
        obtain ⟨s, hps, hse, hvp⟩ := hpstop hstop
        rw [hp2] at hps
        injection hps with hss
        subst hss
        exact ⟨q2, rfl, validate_price_pos hq2 hvp⟩
  · rcases addOptFloat_ok_elim h2 with ⟨hf2, rfl⟩ | ⟨s2, q2, hp2, hs2, hq2, rfl⟩
    · refine ⟨?_, by rw [hf2]; rfl, ?_, ?_⟩
      · rw [hp1]
        show true = !(s1 == "")
        rw [hs1]
        rfl
      · intro hlim
        obtain ⟨s, hps, hse, hvp⟩ := hplim hlim
        rw [hp1] at hps
        injection hps with hss
        subst hss
        exact ⟨q1, rfl, validate_price_pos hq1 hvp⟩
      · intro hstop
        obtain ⟨s, hps, hse, _⟩ := hpstop hstop
        rw [hps] at hf2
        simp only [pyTruthy, Bool.not_eq_false'] at hf2
        rw [hf2] at hse
        exact Bool.noConfusion hse
    · refine ⟨?_, ?_, ?_, ?_⟩
      · rw [hp1]
        show true = !(s1 == "")
        rw [hs1]
        rfl
      · rw [hp2]
        show true = !(s2 == "")
        rw [hs2]
        rfl
      · intro hlim
        obtain ⟨s, hps, hse, hvp⟩ := hplim hlim
        rw [hp1] at hps
        injection hps with hss
        subst hss
        exact ⟨q1, rfl, validate_price_pos hq1 hvp⟩
      · intro hstop
        obtain ⟨s, hps, hse, hvp⟩ := hpstop hstop
        rw [hp2] at hps
        injection hps with hss
        subst hss
        exact ⟨q2, rfl, validate_price_pos hq2 hvp⟩

/-- Witness for the amended C1 at a valid LIMIT order. -/
theorem claim1_witness :
    ((List.lookup "price"
        [("symbol", PyVal.str "ETHUSDT"), ("side", PyVal.str "SELL"),
         ("type", PyVal.str "LIMIT"), ("quantity", PyVal.num ⟨1, 0⟩),
         ("price", PyVal.num ⟨2000, 0⟩)]).isSome = pyTruthy (some "2000")) ∧
    ((List.lookup "stopPrice"
        [("symbol", PyVal.str "ETHUSDT"), ("side", PyVal.str "SELL"),
         ("type", PyVal.str "LIMIT"), ("quantity", PyVal.num ⟨1, 0⟩),
         ("price", PyVal.num ⟨2000, 0⟩)]).isSome = pyTruthy none) ∧
    ((["LIMIT", "STOP_LIMIT"].contains (pyUpper "LIMIT")) = true →
      ∃ q, List.lookup "price"
          [("symbol", PyVal.str "ETHUSDT"), ("side", PyVal.str "SELL"),
           ("type", PyVal.str "LIMIT"), ("quantity", PyVal.num ⟨1, 0⟩),
           ("price", PyVal.num ⟨2000, 0⟩)] = some (PyVal.num q) ∧ 0 < q.toRat) ∧
    (pyUpper "LIMIT" = "STOP_LIMIT" →
      ∃ q, List.lookup "stopPrice"
          [("symbol", PyVal.str "ETHUSDT"), ("side", PyVal.str "SELL"),
           ("type", PyVal.str "LIMIT"), ("quantity", PyVal.num ⟨1, 0⟩),
           ("price", PyVal.num ⟨2000, 0⟩)] = some (PyVal.num q) ∧ 0 < q.toRat) :=
  @claim1_amended "ETHUSDT" "SELL" "LIMIT" "1" (some "2000") none ""
    [("symbol", PyVal.str "ETHUSDT"), ("side", PyVal.str "SELL"),
     ("type", PyVal.str "LIMIT"), ("quantity", PyVal.num ⟨1, 0⟩),
     ("price", PyVal.num ⟨2000, 0⟩)] (by decide)

/-- C9 as stated is false in one corner: with MARKET and all checked
fields valid, a supplied price that does not parse as a float makes
validate raise instead of returning Valid. -/
theorem claim9_counterexample :
    validate_symbol "BTCUSDT" = true ∧ validate_side "BUY" = true ∧
    pyUpper "MARKET" = "MARKET" ∧ validate_quantity "1" = true ∧
    parse_and_validate_inputs "BTCUSDT" "BUY" "MARKET" "1" (some "1x") none
      = .error "ValueError: could not convert string to float" := by decide

/-- C9 (amended): when the order type upper-cases to MARKET and symbol,
side and quantity are valid, and every supplied non-empty price/stop_price
string parses as a float, validate returns Valid — the price and
stopPrice values are never checked for positivity — and every supplied
parseable nonzero value (negative ones included) is copied verbatim into
the output's price/stopPrice fields. -/
theorem claim9_amended (sym sd ot qt : String) (p sp : Option String)
    (hsym : validate_symbol sym = true) (hside : validate_side sd = true)
    (hot : pyUpper ot = "MARKET") (hqt : validate_quantity qt = true)
    (hp : ∀ s, p = some s → s ≠ "" → (pyFloat s).isSome = true)
    (hsp : ∀ s, sp = some s → s ≠ "" → (pyFloat s).isSome = true) :
    ∃ data, parse_and_validate_inputs sym sd ot qt p sp = .ok (true, "", data) ∧
      (∀ s q, p = some s → pyFloat s = some q → q.toRat ≠ 0 →
        data.lookup "price" = some (PyVal.num q)) ∧
      (∀ s q, sp = some s → pyFloat s = some q → q.toRat ≠ 0 →
        data.lookup "stopPrice" = some (PyVal.num q)) := by
  have hotv : validate_order_type ot = true := by
    unfold validate_order_type
    rw [hot]
    decide
  have hc1 : (["LIMIT", "STOP_LIMIT"].contains (pyUpper ot) && priceMissingOrBad p) = false := by
    rw [hot, show (["LIMIT", "STOP_LIMIT"].contains "MARKET") = false from by decide,
      Bool.false_and]
  have hc2 : (pyUpper ot == "STOP_LIMIT" && priceMissingOrBad sp) = false := by
    rw [hot, show ("MARKET" == "STOP_LIMIT") = false from by decide, Bool.false_and]
  have herr : errList sym sd ot qt p sp = [] :=
    errList_eq_nil_iff.mpr ⟨hsym, hside, hotv, hqt, hc1, hc2⟩
  obtain ⟨q, hq, _⟩ := validate_quantity_elim hqt
  obtain ⟨d1, h1, hd1⟩ := @addOptFloat_total "price" p (baseData sym sd ot q) hp
  obtain ⟨d2, h2, hd2⟩ := @addOptFloat_total "stopPrice" sp d1 hsp
  refine ⟨d2, parse_ok_true_intro herr hq h1 h2, ?_, ?_⟩
  · intro s qv hps hqv _
    rcases hd1 with ⟨hf, rfl⟩ | ⟨s1, q1, hps1, hq1, rfl⟩
    · rw [hps] at hf
      simp only [pyTruthy, Bool.not_eq_false'] at hf
      have hs : s = "" := by simpa using hf
      rw [hs, pyFloat_empty] at hqv
      exact Option.noConfusion hqv
    · rw [hps] at hps1
      injection hps1 with hss
      subst hss
      rw [hq1] at hqv
      injection hqv with hqq
      subst hqq
      rcases hd2 with ⟨_, rfl⟩ | ⟨s2, q2, _, _, rfl⟩ <;> rfl
  · intro s qv hps hqv _
    rcases hd2 with ⟨hf, rfl⟩ | ⟨s2, q2, hps2, hq2, rfl⟩
    · rw [hps] at hf
      simp only [pyTruthy, Bool.not_eq_false'] at hf
      have hs : s = "" := by simpa using hf
      rw [hs, pyFloat_empty] at hqv
      exact Option.noConfusion hqv
    · rw [hps] at hps2
      injection hps2 with hss
      subst hss
      rw [hq2] at hqv
      injection hqv with hqq
      subst hqq
      rcases hd1 with ⟨_, rfl⟩ | ⟨s1, q1, _, _, rfl⟩ <;> rfl

/-- Witness for the amended C9: a MARKET order carrying a negative price
validates and the negative value is copied through. -/
theorem claim9_witness :
    ∃ data, parse_and_validate_inputs "BTCUSDT" "BUY" "MARKET" "0.001" (some "-5") none
        = .ok (true, "", data) ∧
      (∀ s q, (some "-5" : Option String) = some s → pyFloat s = some q → q.toRat ≠ 0 →
        data.lookup "price" = some (PyVal.num q)) ∧
      (∀ s q, (none : Option String) = some s → pyFloat s = some q → q.toRat ≠ 0 →
        data.lookup "stopPrice" = some (PyVal.num q)) :=
  claim9_amended "BTCUSDT" "BUY" "MARKET" "0.001" (some "-5") none
    (by decide) (by decide) (by decide) (by decide)
    (by intro s hs hne; injection hs with h; rw [← h]; decide)
    (by intro s hs hne; exact Option.noConfusion hs)

/-- C10: on every non-raising run the three components of the result are
linked: the boolean is `True` exactly when the message is empty, and
exactly when the dict is non-empty; on failure the message is non-empty
and the dict empty, and on success the dict holds at least the symbol,
side, type and quantity entries. -/
theorem claim10_result_invariant {sym sd ot qt : String} {p sp : Option String}
    {valid : Bool} {msg : String} {data : List (String × PyVal)}
    (h : parse_and_validate_inputs sym sd ot qt p sp = .ok (valid, msg, data)) :
    (valid = true ↔ msg = "") ∧
    (valid = true ↔ data ≠ []) ∧
    (valid = false → msg ≠ "" ∧ data = []) ∧
    (valid = true →
      (data.lookup "symbol").isSome = true ∧ (data.lookup "side").isSome = true ∧
      (data.lookup "type").isSome = true ∧
      ∃ q, data.lookup "quantity" = some (PyVal.num q)) := by
  rcases parse_ok_elim h with ⟨hne, rfl, rfl, rfl⟩ | ⟨he, rfl, rfl, q, d1, hq, h1, h2⟩
  · obtain ⟨a, t, hat⟩ := List.exists_cons_of_ne_nil hne
    have hmem : a ∈ errList sym sd ot qt p sp := by
      rw [hat]
      exact List.mem_cons_self a t
    have hmsg : String.intercalate " | " (errList sym sd ot qt p sp) ≠ "" := by
      rw [hat]
      exact intercalate_ne_empty t (errList_msg_ne_empty hmem)
    refine ⟨?_, ?_, fun _ => ⟨hmsg, rfl⟩, fun hc => Bool.noConfusion hc⟩
    · exact ⟨fun hc => Bool.noConfusion hc, fun hc => absurd hc hmsg⟩
    · exact ⟨fun hc => Bool.noConfusion hc, fun hc => absurd rfl hc⟩
  · rcases addOptFloat_ok_elim h1 with ⟨_, rfl⟩ | ⟨s1, q1, _, _, _, rfl⟩ <;>
      rcases addOptFloat_ok_elim h2 with ⟨_, rfl⟩ | ⟨s2, q2, _, _, _, rfl⟩ <;>
      exact ⟨iff_of_true rfl rfl, iff_of_true rfl (by simp [baseData]),
        fun hc => Bool.noConfusion hc, fun _ => ⟨rfl, rfl, rfl, q, rfl⟩⟩

/-- Witness for C10 at the spec's valid MARKET example. -/
theorem claim10_witness :
    (true = true ↔ ("" : String) = "") ∧
    (true = true ↔
      ([("symbol", PyVal.str "BTCUSDT"), ("side", PyVal.str "BUY"),
        ("type", PyVal.str "MARKET"), ("quantity", PyVal.num ⟨1, 3⟩)]
        : List (String × PyVal)) ≠ []) ∧
    (true = false → ("" : String) ≠ "" ∧
      ([("symbol", PyVal.str "BTCUSDT"), ("side", PyVal.str "BUY"),
        ("type", PyVal.str "MARKET"), ("quantity", PyVal.num ⟨1, 3⟩)]
        : List (String × PyVal)) = []) ∧
    (true = true →
      ((List.lookup "symbol"
        [("symbol", PyVal.str "BTCUSDT"), ("side", PyVal.str "BUY"),
         ("type", PyVal.str "MARKET"), ("quantity", PyVal.num ⟨1, 3⟩)]).isSome = true) ∧
      ((List.lookup "side"
        [("symbol", PyVal.str "BTCUSDT"), ("side", PyVal.str "BUY"),
         ("type", PyVal.str "MARKET"), ("quantity", PyVal.num ⟨1, 3⟩)]).isSome = true) ∧
      ((List.lookup "type"
        [("symbol", PyVal.str "BTCUSDT"), ("side", PyVal.str "BUY"),
         ("type", PyVal.str "MARKET"), ("quantity", PyVal.num ⟨1, 3⟩)]).isSome = true) ∧
      ∃ q, List.lookup "quantity"
        [("symbol", PyVal.str "BTCUSDT"), ("side", PyVal.str "BUY"),
         ("type", PyVal.str "MARKET"), ("quantity", PyVal.num ⟨1, 3⟩)]
        = some (PyVal.num q)) :=
  @claim10_result_invariant "BTCUSDT" "BUY" "MARKET" "0.001" none none true ""
    [("symbol", PyVal.str "BTCUSDT"), ("side", PyVal.str "BUY"),
     ("type", PyVal.str "MARKET"), ("quantity", PyVal.num ⟨1, 3⟩)] (by decide)
